import Mathlib

/- Verification of the script_exporter repository (script_exporter.go): a shallow
   embedding of the output-protocol parser, the script execution and metric
   dispatch pipeline in both triggering modes, and the script selection filter,
   together with theorems settling the specification's claims. Go strings are
   embedded as List Char; `"…".data` converts a Lean string literal. -/

namespace ScriptExporter

/-! ## Output protocol parser

The source compiles the fixed pattern
`NAME:(?P<NAME>\w+):LABEL_VALUES:(?P<VALUE>.+):RESULT:(?P<VALUE>.+)`
and applies `FindStringSubmatch` to every line of the captured output.
The matcher below embeds RE2's semantics specialized to this one pattern:
the match starts at the leftmost position admitting a full match, `\w+` is a
maximal nonempty run of word characters (a shorter run cannot help, since the
following pattern character `:` is not a word character), and the greedy
first `.+` group takes the longest prefix that leaves the literal `:RESULT:`
followed by a nonempty remainder.  Inputs are single lines (the caller splits
on the newline character first), so the newline-exclusion of `.` is vacuous. -/

/-- Word characters of the RE2 class `\w`: ASCII letters, digits, underscore. -/
def isWordChar (c : Char) : Bool :=
  c.isUpper || c.isLower || c.isDigit || c == '_'

/-- Consume an exact literal at the head of the input, returning the rest. -/
def dropLit : List Char → List Char → Option (List Char)
  | [], s => some s
  | _ :: _, [] => none
  | l :: ls, c :: cs => if c = l then dropLit ls cs else none

/-- Greedy split of the text following `LABEL_VALUES:` around the literal
    `:RESULT:`: the split happens at the last occurrence of the literal that
    leaves a nonempty remainder, which is the preference order of the greedy
    first `.+` group (the prefix may come out empty; the caller rejects that,
    since `.+` needs at least one character). -/
def splitResult : List Char → Option (List Char × List Char)
  | [] => none
  | c :: cs =>
    match splitResult cs with
    | some (p, r) => some (c :: p, r)
    | none =>
      match dropLit (":RESULT:".data) (c :: cs) with
      | some (d :: ds) => some ([], d :: ds)
      | _ => none

/-- Attempt to match the full pattern at the head of the input, returning the
    three capture groups (metric name, label-values field, result field). -/
def matchAt (s : List Char) : Option (List Char × List Char × List Char) :=
  match dropLit ("NAME:".data) s with
  | none => none
  | some r1 =>
    if r1.takeWhile isWordChar = [] then none
    else
      match dropLit (":LABEL_VALUES:".data) (r1.dropWhile isWordChar) with
      | none => none
      | some r3 =>
        match splitResult r3 with
        | none => none
        | some (lv, res) =>
          if lv = [] then none else some (r1.takeWhile isWordChar, lv, res)

/-- FindStringSubmatch of the fixed pattern on one line: the leftmost position
    admitting a full match wins; `none` models a nil (no-match) result. -/
def findStringSubmatch : List Char → Option (List Char × List Char × List Char)
  | [] => none
  | c :: cs =>
    match matchAt (c :: cs) with
    | some g => some g
    | none => findStringSubmatch cs

/-- Split on a separator character keeping empty fields: the semantics of Go's
    strings.Split with a one-character separator (an empty input yields one
    empty field, and no trimming happens). -/
def splitSep (sep : Char) : List Char → List (List Char)
  | [] => [[]]
  | c :: cs =>
    if c = sep then
      [] :: splitSep sep cs
    else
      match splitSep sep cs with
      | [] => [[c]]
      | h :: t => (c :: h) :: t

/-- MetricOutput of the source: one parsed measurement record. -/
structure MetricOutput where
  Name : List Char
  Result : List Char
  Labels : List (List Char)
deriving DecidableEq, Repr

/-- Build the record from the three capture groups exactly as the source does:
    Name from group 1, Labels by splitting group 2 on commas, Result group 3. -/
def mkRecord (g : List Char × List Char × List Char) : MetricOutput :=
  { Name := g.1, Result := g.2.2, Labels := splitSep ',' g.2.1 }

/-- One iteration of the loop body of getMetricOutput: a non-matching line
    leaves the accumulator unchanged, a matching line appends its record. -/
def gmoStep (ms : List MetricOutput) (v : List Char) : List MetricOutput :=
  match findStringSubmatch v with
  | none => ms
  | some g => ms ++ [mkRecord g]

/-- getMetricOutput of the source: split the captured output on newlines and
    fold the matching loop over the lines, starting from the empty slice. -/
def getMetricOutput (output : List Char) : List MetricOutput :=
  (splitSep '\n' output).foldl gmoStep []

/-- The record contributed by a single line, if any. -/
def lineRecord (v : List Char) : Option MetricOutput :=
  (findStringSubmatch v).map mkRecord

/-! ## Metric registry and dispatcher

The `Metric` struct carries an untyped handle field (`Metric interface{}` in
the source).  `createMetrics` fills it, for declarations of type "GaugeVec",
with the result of `prometheus.NewGaugeVec`, which is a pointer
(`*prometheus.GaugeVec`).  The on-demand variant of `processMetric` performs
the value-type assertion `m.Metric.(prometheus.GaugeVec)`, the scheduler
variant the pointer-type assertion `m.Metric.(*prometheus.GaugeVec)`; both
log on a failed assertion and then call `WithLabelValues` on the zero value
of the asserted type anyway, which dereferences a nil descriptor and faults
(a runtime panic).  `GoValue` embeds the dynamic type of the stored handle so
the assertions can be decided. -/

/-- Dynamic value stored in the untyped handle field `Metric interface{}`. -/
inductive GoValue where
  /-- The nil interface value (field never assigned). -/
  | nilInterface
  /-- A `*prometheus.GaugeVec` as returned by `prometheus.NewGaugeVec`, with
      the name and label names it was created from. -/
  | gaugeVecPtr (name : List Char) (labelNames : List (List Char))
  /-- A `prometheus.GaugeVec` value (no code path of this program stores one;
      present so the value-type assertion has its genuine semantics). -/
  | gaugeVecVal
deriving DecidableEq, Repr

/-- Metric declaration of the source (field `Type` is spelled `Typ`, since
    `Type` is reserved in Lean; field `Metric` holds the live handle). -/
structure Metric where
  Name : List Char
  Typ : List Char
  Help : List Char
  Labels : List (List Char)
  Namespace : List Char
  Metric : GoValue
deriving DecidableEq, Repr

/-- createMetrics of the on-demand variant: every declaration of type
    "GaugeVec" receives a live `*prometheus.GaugeVec` handle built from its
    name and label names (iteration over the Go map is per-entry independent,
    so a list map embeds it faithfully). -/
def createMetrics1 (metrics : List Metric) : List Metric :=
  metrics.map fun m =>
    if m.Typ = "GaugeVec".data then
      { m with Metric := GoValue.gaugeVecPtr m.Name m.Labels }
    else m

/-- createMetrics of the scheduler variant: identical handle creation; the
    additional `MustRegister` of each created collector touches only the
    external exposition registry and is not modeled. -/
def createMetrics2 (metrics : List Metric) : List Metric :=
  metrics.map fun m =>
    if m.Typ = "GaugeVec".data then
      { m with Metric := GoValue.gaugeVecPtr m.Name m.Labels }
    else m

/-- Strip one optional leading sign. -/
def stripSign : List Char → List Char
  | '+' :: cs => cs
  | '-' :: cs => cs
  | cs => cs

/-- All characters are ASCII digits. -/
def allDigits (l : List Char) : Bool := l.all fun c => c.isDigit

/-- Mantissa of a decimal floating-point numeral: digits with at most one
    point and at least one digit overall. -/
def mantOk (l : List Char) : Bool :=
  let ip := l.takeWhile fun c => c != '.'
  match l.dropWhile (fun c => c != '.') with
  | [] => !ip.isEmpty && allDigits ip
  | _ :: fp => allDigits ip && allDigits fp && (!ip.isEmpty || !fp.isEmpty)

/-- Modelled from the spec: strconv.ParseFloat (standard library, not in
    src/) — "the record's resultValue, parsed as a floating-point number; a
    parse failure discards the record".  Modeled as recognition of a decimal
    floating-point numeral (optional sign, digits with optional fraction and
    optional exponent).  The hexadecimal, infinity and NaN forms and the
    underscore digit separators of the full Go syntax, and the numeric
    IEEE-754 value itself, are not needed by any claim and are not modeled. -/
def goParseFloatOk (s : List Char) : Bool :=
  let s1 := stripSign s
  let mant := s1.takeWhile fun c => c != 'e' && c != 'E'
  match s1.dropWhile (fun c => c != 'e' && c != 'E') with
  | [] => mantOk mant
  | _ :: ex =>
    let ex1 := stripSign ex
    mantOk mant && (!ex1.isEmpty && allDigits ex1)

/-- The two mutation operations a dispatch can invoke on a gauge handle:
    `add` accumulates onto the current value of the addressed label vector,
    `set` replaces it. -/
inductive MutOp where
  | add
  | set
deriving DecidableEq, Repr

/-- Which handle object a mutation is invoked on. -/
inductive HandleTarget where
  /-- The handle stored in the declaration's `Metric` field (the registered
      live handle, when the stored value has the asserted type). -/
  | stored
  /-- The zero value of the asserted type, used after a failed type
      assertion: `WithLabelValues` on it faults (nil-descriptor panic). -/
  | zeroValue
deriving DecidableEq, Repr

/-- Observable effect of one processMetric call. -/
inductive DispatchStep where
  /-- Metric type not handled by the switch, or result value not numeric. -/
  | noop
  /-- `WithLabelValues(labelValues…).Op(value)` invoked on `target`;
      `faults` records whether the call panics (true exactly when the target
      is the zero value of the asserted handle type). -/
  | mutate (target : HandleTarget) (op : MutOp) (labelValues : List (List Char))
      (value : List Char) (faults : Bool)
deriving DecidableEq, Repr

/-- processMetric of the on-demand variant: value-type assertion
    `m.Metric.(prometheus.GaugeVec)`, then `Add` of the parsed result value
    at the record's label vector.  A failed assertion is logged but execution
    continues on the zero-value handle. -/
def processMetric1 (m : Metric) (mo : MetricOutput) : DispatchStep :=
  if m.Typ = "GaugeVec".data then
    if goParseFloatOk mo.Result then
      match m.Metric with
      | GoValue.gaugeVecVal =>
          DispatchStep.mutate HandleTarget.stored MutOp.add mo.Labels mo.Result false
      | _ =>
          DispatchStep.mutate HandleTarget.zeroValue MutOp.add mo.Labels mo.Result true
    else DispatchStep.noop
  else DispatchStep.noop

/-- processMetric of the scheduler variant: pointer-type assertion
    `m.Metric.(*prometheus.GaugeVec)`, then `Set` of the parsed result value
    at the record's label vector. -/
def processMetric2 (m : Metric) (mo : MetricOutput) : DispatchStep :=
  if m.Typ = "GaugeVec".data then
    if goParseFloatOk mo.Result then
      match m.Metric with
      | GoValue.gaugeVecPtr _ _ =>
          DispatchStep.mutate HandleTarget.stored MutOp.set mo.Labels mo.Result false
      | _ =>
          DispatchStep.mutate HandleTarget.zeroValue MutOp.set mo.Labels mo.Result true
    else DispatchStep.noop
  else DispatchStep.noop

/-! ## Script execution

Subprocess behavior lives outside the program, so one invocation's
interaction with the interpreter is abstracted into an `ExecEnv` oracle.
Modelled from the spec for the os/exec standard library (not in src/):
`StdinPipe`, `Start` and the stdin `Write` each either succeed or yield an
error; `Wait` returns nil exactly when the interpreter ran to completion and
exited with status zero, while a nonzero exit or the forced termination at
the context deadline yield a non-nil error.  `captured` is the content of the
output buffer at the moment the invocation returns. -/

/-- Outcome of `Wait` on the interpreter process. -/
inductive WaitOutcome where
  /-- Ran the supplied script to completion, exit status zero. -/
  | exitedZero
  /-- Exited with a nonzero status. -/
  | exitedNonzero
  /-- Forcibly terminated when the timeout deadline expired. -/
  | killedAtDeadline
deriving DecidableEq, Repr

/-- Error value returned by `Wait`, none exactly on a zero exit status. -/
def waitErrOf : WaitOutcome → Option (List Char)
  | WaitOutcome.exitedZero => none
  | WaitOutcome.exitedNonzero => some ("exit status 1".data)
  | WaitOutcome.killedAtDeadline => some ("signal: killed".data)

/-- One invocation's environment: outcomes of the interpreter interaction. -/
structure ExecEnv where
  stdinPipeErr : Option (List Char)
  startErr : Option (List Char)
  writeErr : Option (List Char)
  wait : WaitOutcome
  captured : List Char
deriving DecidableEq, Repr

/-- Script configuration of the on-demand variant. -/
structure Script where
  Name : List Char
  Content : List Char
  Timeout : Int
  Interval : Int
deriving DecidableEq, Repr

/-- Placeholder used by the out-of-range arm of list indexing (never reached
    under the stated hypotheses). -/
def defaultScript : Script := ⟨[], [], 0, 0⟩

/-- runScript of the on-demand variant: the three setup steps return an empty
    output string on failure; otherwise the invocation returns the captured
    buffer together with the error value of `Wait`.  The timeout deadline is
    part of the environment through `WaitOutcome.killedAtDeadline`. -/
def runScript1 (_s : Script) (env : ExecEnv) : List Char × Option (List Char) :=
  match env.stdinPipeErr with
  | some e => ([], some e)
  | none =>
    match env.startErr with
    | some e => ([], some e)
    | none =>
      match env.writeErr with
      | some e => ([], some e)
      | none => (env.captured, waitErrOf env.wait)

/-- Measurement of the on-demand variant (the wall-clock `Duration` field is
    real time and is not modeled). -/
structure Measurement where
  script : Script
  Success : Nat
  MetricOutputs : List MetricOutput
deriving DecidableEq, Repr

/-- Body of the goroutine launched per script by runScripts: run the script,
    flag success 1 exactly on a nil error, and parse whatever output came
    back — also when the run failed. -/
def measurementOf (s : Script) (env : ExecEnv) : Measurement :=
  let r := runScript1 s env
  { script := s
    Success := if r.2 = none then 1 else 0
    MetricOutputs := getMetricOutput r.1 }

/-- runScripts of the on-demand variant: one goroutine per script sends its
    measurement on an unbuffered channel and the caller receives exactly
    `scripts.length` values.  Channel delivery is abstracted by `order`, the
    sequence of script indices in arrival order: under the hypothesis that
    `order` is a permutation of the index range, the collected list is the
    per-index measurements in arrival order. -/
def runScripts (scripts : List Script) (envs : Nat → ExecEnv) (order : List Nat) :
    List Measurement :=
  order.map fun i => measurementOf (scripts.getD i defaultScript) (envs i)

/-- runScript of the scheduler variant: identical interaction, but the parsed
    records are returned instead of the raw output (an empty record list on a
    setup failure). -/
def runScript2 (_s : Script) (env : ExecEnv) : List MetricOutput × Option (List Char) :=
  match env.stdinPipeErr with
  | some e => ([], some e)
  | none =>
    match env.startErr with
    | some e => ([], some e)
    | none =>
      match env.writeErr with
      | some e => ([], some e)
      | none => (getMetricOutput env.captured, waitErrOf env.wait)

/-- Outcome of dispatching one record against the metric map. -/
inductive DispatchOutcome where
  /-- The record's name resolved and processMetric ran. -/
  | step (s : DispatchStep)
  /-- Unknown metric name: logged, record discarded. -/
  | unknownMetric (name : List Char)
deriving DecidableEq, Repr

/-- Lookup in the configuration's metric map (`map[string]*Metric`), embedded
    as an association list with the map's unique keys. -/
def lookupMetric : List (List Char × Metric) → List Char → Option Metric
  | [], _ => none
  | (k, m) :: rest, n => if k = n then some m else lookupMetric rest n

/-- Dispatch of one record on the on-demand path (body of the loop in
    scriptRunHandler). -/
def dispatchOnDemand (metrics : List (List Char × Metric)) (mo : MetricOutput) :
    DispatchOutcome :=
  match lookupMetric metrics mo.Name with
  | some m => DispatchOutcome.step (processMetric1 m mo)
  | none => DispatchOutcome.unknownMetric mo.Name

/-- Dispatch performed by scriptRunHandler for one measurement: every parsed
    record is dispatched, with no success guard. -/
def onDemandDispatch (metrics : List (List Char × Metric)) (m : Measurement) :
    List DispatchOutcome :=
  m.MetricOutputs.map (dispatchOnDemand metrics)

/-- Dispatch of one record on the scheduler path. -/
def dispatchScheduler (metrics : List (List Char × Metric)) (mo : MetricOutput) :
    DispatchOutcome :=
  match lookupMetric metrics mo.Name with
  | some m => DispatchOutcome.step (processMetric2 m mo)
  | none => DispatchOutcome.unknownMetric mo.Name

/-- One timer tick of runScriptWorker for one script: on a non-nil execution
    error the worker hits `continue` and dispatches nothing; otherwise every
    returned record is dispatched. -/
def schedulerTick (metrics : List (List Char × Metric)) (s : Script) (env : ExecEnv) :
    List DispatchOutcome :=
  match runScript2 s env with
  | (_, some _) => []
  | (mos, none) => mos.map (dispatchScheduler metrics)

/-! ## Selection filter -/

/-- Loop condition of scriptFilter: exact name equality, or — when a pattern
    was supplied — a regular-expression match of the script name (the
    short-circuit of `&&` keeps the nil matcher untouched when the pattern is
    empty). -/
def sfCond (name pattern : List Char) (matcher : List Char → Bool) (s : Script) : Bool :=
  s.Name == name || (!pattern.isEmpty && matcher s.Name)

/-- Selection loop of scriptFilter: append every script passing the condition
    to the (initially nil) result slice. -/
def scriptFilterLoop (scripts : List Script) (name pattern : List Char)
    (matcher : List Char → Bool) : List Script :=
  scripts.foldl (fun acc s => if sfCond name pattern matcher s then acc ++ [s] else acc) []

/-- scriptFilter of the source.  The compilation of the pattern by
    regexp.Compile (standard library, not in src/) is abstracted into the
    `compile` argument: an error, or a compiled matcher on script names. -/
def scriptFilter (compile : List Char → Except (List Char) (List Char → Bool))
    (scripts : List Script) (name pattern : List Char) :
    Except (List Char) (List Script) :=
  if name = [] ∧ pattern = [] then
    Except.error ("`name` or `pattern` required".data)
  else if pattern ≠ [] then
    match compile pattern with
    | Except.error e => Except.error e
    | Except.ok matcher => Except.ok (scriptFilterLoop scripts name pattern matcher)
  else
    Except.ok (scriptFilterLoop scripts name pattern fun _ => false)

/-! ## Helper lemmas -/

theorem foldl_gmoStep (lines : List (List Char)) :
    ∀ acc : List MetricOutput,
      lines.foldl gmoStep acc = acc ++ lines.filterMap lineRecord := by
  induction lines with
  | nil => intro acc; simp
  | cons v ls ih =>
    intro acc
    rw [List.foldl_cons]
    cases h : findStringSubmatch v with
    | none =>
      have hs : gmoStep acc v = acc := by simp [gmoStep, h]
      have hl : lineRecord v = none := by simp [lineRecord, h]
      rw [hs, ih, List.filterMap_cons, hl]
    | some g =>
      have hs : gmoStep acc v = acc ++ [mkRecord g] := by simp [gmoStep, h]
      have hl : lineRecord v = some (mkRecord g) := by simp [lineRecord, h]
      rw [hs, ih, List.filterMap_cons, hl, List.append_assoc]
      rfl

theorem matchAt_labels_ne_nil {s : List Char} {g : List Char × List Char × List Char}
    (h : matchAt s = some g) : g.2.1 ≠ [] := by
  unfold matchAt at h
  repeat' split at h
  any_goals exact Option.noConfusion h
  injection h with h2
  subst h2
  rename_i hlv
  exact hlv

theorem findStringSubmatch_labels_ne_nil :
    ∀ (line : List Char) (g : List Char × List Char × List Char),
      findStringSubmatch line = some g → g.2.1 ≠ [] := by
  intro line
  induction line with
  | nil => intro g h; simp [findStringSubmatch] at h
  | cons c cs ih =>
    intro g h
    simp only [findStringSubmatch] at h
    cases hm : matchAt (c :: cs) with
    | none => rw [hm] at h; exact ih g h
    | some g0 =>
      rw [hm] at h
      simp only [Option.some.injEq] at h
      subst h
      exact matchAt_labels_ne_nil hm

theorem scriptFilterLoop_eq_filter (scripts : List Script) (name pattern : List Char)
    (matcher : List Char → Bool) :
    scriptFilterLoop scripts name pattern matcher =
      scripts.filter (sfCond name pattern matcher) := by
  have aux : ∀ (l : List Script) (acc : List Script),
      l.foldl (fun acc s => if sfCond name pattern matcher s then acc ++ [s] else acc) acc
        = acc ++ l.filter (sfCond name pattern matcher) := by
    intro l
    induction l with
    | nil => intro acc; simp
    | cons s t ih =>
      intro acc
      rw [List.foldl_cons]
      cases hc : sfCond name pattern matcher s with
      | true => simp [hc, ih, List.filter_cons]
      | false => simp [hc, ih, List.filter_cons]
  simpa [scriptFilterLoop] using aux scripts []

theorem map_getD_range (l : List Script) :
    (List.range l.length).map (fun i => l.getD i defaultScript) = l := by
  induction l with
  | nil => simp
  | cons a t ih =>
    rw [List.length_cons, List.range_succ_eq_map, List.map_cons, List.map_map]
    simp only [Function.comp_def, List.getD_cons_zero, List.getD_cons_succ]
    exact congrArg (a :: ·) ih

/-! ## Claims -/

/-- C1: for every input string, getMetricOutput returns exactly one record per
    line matching the protocol pattern — Name the captured metric name, Labels
    the captured label-values field split on commas, Result the captured
    result field — in the order the lines appear, and every non-matching line
    contributes no record and causes no error (the parser is a total
    function, the per-line contribution is `lineRecord`).  The second
    conjunct instantiates the specification's example line. -/
theorem getMetricOutput_one_record_per_matching_line :
    (∀ output : List Char,
        getMetricOutput output = (splitSep '\n' output).filterMap lineRecord) ∧
    getMetricOutput ("NAME:n:LABEL_VALUES:a,b:RESULT:r".data) =
      [⟨"n".data, "r".data, ["a".data, "b".data]⟩] := by
  constructor
  · intro output
    simpa [getMetricOutput] using foldl_gmoStep (splitSep '\n' output) []
  · decide

/-- C2: evaluation at the claim's input.  createMetrics stores a pointer
    handle for the declared GaugeVec metric and the protocol line parses to
    the expected record, but the on-demand processMetric — whose type
    assertion demands a GaugeVec value, not a pointer — fails the assertion
    on that stored handle and invokes Add on the zero-value handle, which
    faults; the value 1 is never applied to the registered handle. -/
theorem onDemand_dispatch_asserts_value_type_and_faults :
    createMetrics1 [⟨"MYMETRIC".data, "GaugeVec".data, "help".data, ["pid".data],
        "ns".data, GoValue.nilInterface⟩] =
      [⟨"MYMETRIC".data, "GaugeVec".data, "help".data, ["pid".data], "ns".data,
        GoValue.gaugeVecPtr ("MYMETRIC".data) ["pid".data]⟩] ∧
    getMetricOutput ("NAME:MYMETRIC:LABEL_VALUES:398493840:RESULT:1".data) =
      [⟨"MYMETRIC".data, "1".data, ["398493840".data]⟩] ∧
    processMetric1
        ⟨"MYMETRIC".data, "GaugeVec".data, "help".data, ["pid".data], "ns".data,
          GoValue.gaugeVecPtr ("MYMETRIC".data) ["pid".data]⟩
        ⟨"MYMETRIC".data, "1".data, ["398493840".data]⟩ =
      DispatchStep.mutate HandleTarget.zeroValue MutOp.add ["398493840".data]
        ("1".data) true :=
  ⟨by decide, by decide, by decide⟩

/-- C3: evaluation of both dispatch paths on the same live metric handle and
    record: the on-demand path invokes Add and the scheduler path invokes Set,
    each at the record's label vector with the parsed value — but the
    on-demand Add lands on the zero-value handle (its value-type assertion
    fails on the stored pointer) and faults, while the scheduler Set reaches
    the stored registered handle. -/
theorem dispatch_mutation_coupled_to_mode :
    processMetric1
        ⟨"m".data, "GaugeVec".data, "h".data, ["l".data], "ns".data,
          GoValue.gaugeVecPtr ("m".data) ["l".data]⟩
        ⟨"m".data, "1".data, ["398493840".data]⟩ =
      DispatchStep.mutate HandleTarget.zeroValue MutOp.add ["398493840".data]
        ("1".data) true ∧
    processMetric2
        ⟨"m".data, "GaugeVec".data, "h".data, ["l".data], "ns".data,
          GoValue.gaugeVecPtr ("m".data) ["l".data]⟩
        ⟨"m".data, "1".data, ["398493840".data]⟩ =
      DispatchStep.mutate HandleTarget.stored MutOp.set ["398493840".data]
        ("1".data) false :=
  ⟨by decide, by decide⟩

/-- C4: an execution flags success exactly when the interpreter ran the
    script content to completion and exited with status zero; a stdin-pipe
    failure, a start failure, a write failure, a nonzero exit and the forced
    termination at the deadline each yield success 0, regardless of how much
    output was captured. -/
theorem runScript_success_iff_exit_zero (s : Script) (env : ExecEnv) :
    (measurementOf s env).Success = 1 ↔
      env.stdinPipeErr = none ∧ env.startErr = none ∧ env.writeErr = none ∧
        env.wait = WaitOutcome.exitedZero := by
  obtain ⟨sp, st, wr, w, cap⟩ := env
  cases sp <;> cases st <;> cases wr <;> cases w <;>
    simp [measurementOf, runScript1, waitErrOf]

/-- C5 counterexample: a run that exits nonzero while its captured output
    holds a valid protocol line parses to a nonempty record list, yet the
    scheduler worker dispatches nothing for it — runScriptWorker hits
    `continue` on the non-nil error before dispatching. -/
theorem scheduler_tick_discards_failed_run_records :
    getMetricOutput ("NAME:m:LABEL_VALUES:a:RESULT:1".data) ≠ [] ∧
    schedulerTick
        [("m".data, ⟨"m".data, "GaugeVec".data, "h".data, ["l".data], "ns".data,
          GoValue.gaugeVecPtr ("m".data) ["l".data]⟩)]
        ⟨"probe".data, "exit 1".data, 1, 1⟩
        ⟨none, none, none, WaitOutcome.exitedNonzero,
          "NAME:m:LABEL_VALUES:a:RESULT:1".data⟩ = [] :=
  ⟨by decide, by decide⟩

/-- C5 amended: when the setup steps succeed, the execution unit returns the
    captured output even for a nonzero exit or a deadline kill, and the
    on-demand path dispatches exactly the records parsed from the returned
    output regardless of the outcome; but a setup failure returns empty
    output rather than the partial output, and the continuous-scheduler path
    dispatches nothing whenever the execution returned an error. -/
theorem failed_run_output_and_dispatch
    (s : Script) (env : ExecEnv) (metrics : List (List Char × Metric)) :
    (env.stdinPipeErr = none → env.startErr = none → env.writeErr = none →
        (runScript1 s env).1 = env.captured) ∧
    onDemandDispatch metrics (measurementOf s env) =
        (getMetricOutput (runScript1 s env).1).map (dispatchOnDemand metrics) ∧
    ((runScript2 s env).2 ≠ none → schedulerTick metrics s env = []) := by
  obtain ⟨sp, st, wr, w, cap⟩ := env
  refine ⟨?_, rfl, ?_⟩
  · intro h1 h2 h3
    subst h1; subst h2; subst h3
    rfl
  · cases sp <;> cases st <;> cases wr <;> cases w <;>
      simp [schedulerTick, runScript2, waitErrOf]

/-- Witness for the amended C5 at a concrete deadline-killed run: the output
    is returned and the scheduler tick dispatches nothing. -/
theorem failed_run_output_and_dispatch_witness :
    (runScript1 ⟨"p".data, "exit 1".data, 1, 1⟩
        ⟨none, none, none, WaitOutcome.killedAtDeadline,
          "NAME:k:LABEL_VALUES:v:RESULT:2".data⟩).1 =
      "NAME:k:LABEL_VALUES:v:RESULT:2".data ∧
    schedulerTick [] ⟨"p".data, "exit 1".data, 1, 1⟩
        ⟨none, none, none, WaitOutcome.killedAtDeadline,
          "NAME:k:LABEL_VALUES:v:RESULT:2".data⟩ = [] := by
  have h := failed_run_output_and_dispatch ⟨"p".data, "exit 1".data, 1, 1⟩
      ⟨none, none, none, WaitOutcome.killedAtDeadline,
        "NAME:k:LABEL_VALUES:v:RESULT:2".data⟩ []
  exact ⟨h.1 rfl rfl rfl, h.2.2 (by decide)⟩

/-- C6: for every script list, every family of per-script execution
    environments and every arrival order that is a permutation of the index
    range, runScripts returns exactly one measurement per input script: the
    result count equals the script count and the underlying scripts of the
    results are a permutation of the input list — none lost, none
    duplicated, whatever each script's outcome and completion order. -/
theorem runScripts_exactly_one_result_per_script
    (scripts : List Script) (envs : Nat → ExecEnv) (order : List Nat)
    (h : order.Perm (List.range scripts.length)) :
    (runScripts scripts envs order).length = scripts.length ∧
      ((runScripts scripts envs order).map (fun m => m.script)).Perm scripts := by
  constructor
  · simp [runScripts, h.length_eq]
  · have h1 : (runScripts scripts envs order).map (fun m => m.script)
        = order.map (fun i => scripts.getD i defaultScript) := by
      simp only [runScripts, List.map_map]
      rfl
    have h2 := h.map (fun i => scripts.getD i defaultScript)
    rw [map_getD_range scripts] at h2
    rw [h1]
    exact h2

/-- Witness for C6 with two scripts collected in reversed arrival order. -/
theorem runScripts_exactly_one_result_per_script_witness :
    ([1, 0].Perm (List.range 2)) ∧
    (runScripts [⟨"a".data, "exit 0".data, 1, 1⟩, ⟨"b".data, "exit 1".data, 1, 1⟩]
        (fun _ => ⟨none, none, none, WaitOutcome.exitedZero, []⟩) [1, 0]).length = 2 ∧
    ((runScripts [⟨"a".data, "exit 0".data, 1, 1⟩, ⟨"b".data, "exit 1".data, 1, 1⟩]
        (fun _ => ⟨none, none, none, WaitOutcome.exitedZero, []⟩) [1, 0]).map
      (fun m => m.script)).Perm
        [⟨"a".data, "exit 0".data, 1, 1⟩, ⟨"b".data, "exit 1".data, 1, 1⟩] := by
  have hp : [1, 0].Perm (List.range 2) := by decide
  have h := runScripts_exactly_one_result_per_script
      [⟨"a".data, "exit 0".data, 1, 1⟩, ⟨"b".data, "exit 1".data, 1, 1⟩]
      (fun _ => ⟨none, none, none, WaitOutcome.exitedZero, []⟩) [1, 0] hp
  exact ⟨hp, h.1, h.2⟩

/-- C7: on every non-error invocation — a selector supplied, and the pattern,
    when supplied, compiling to a matcher — scriptFilter returns exactly the
    configured scripts whose name equals the exact name or (pattern supplied)
    matches the pattern, in configuration order, and the selection condition
    is the logical OR of the two criteria, so an exact name together with a
    catch-all pattern yields the union. -/
theorem scriptFilter_or_semantics
    (compile : List Char → Except (List Char) (List Char → Bool))
    (scripts : List Script) (name pattern : List Char) (matcher : List Char → Bool)
    (hsel : ¬(name = [] ∧ pattern = []))
    (hc : pattern ≠ [] → compile pattern = Except.ok matcher) :
    scriptFilter compile scripts name pattern =
        Except.ok (scripts.filter (sfCond name pattern matcher)) ∧
      ∀ s : Script, sfCond name pattern matcher s = true ↔
        (s.Name = name ∨ (pattern ≠ [] ∧ matcher s.Name = true)) := by
  by_cases hp : pattern = []
  · subst hp
    have hn : name ≠ [] := fun h => hsel ⟨h, rfl⟩
    constructor
    · rw [scriptFilter]
      rw [if_neg (by exact fun h => hn h.1), if_neg (by simp)]
      rw [scriptFilterLoop_eq_filter]
      refine congrArg Except.ok (List.filter_congr ?_)
      intro s _
      simp [sfCond]
    · intro s
      simp [sfCond]
  · constructor
    · rw [scriptFilter, if_neg (by exact fun h => hp h.2), if_pos hp, hc hp]
      exact congrArg Except.ok (scriptFilterLoop_eq_filter scripts name pattern matcher)
    · intro s
      simp [sfCond, hp, List.isEmpty_iff]

/-- Witness for C7: an exact name together with a catch-all pattern returns
    the whole configuration (the union, not the intersection). -/
theorem scriptFilter_or_semantics_witness :
    scriptFilter (fun _ => Except.ok fun _ => true)
        [⟨"success".data, "exit 0".data, 1, 1⟩, ⟨"failure".data, "exit 1".data, 1, 1⟩]
        ("success".data) (".*".data) =
      Except.ok
        [⟨"success".data, "exit 0".data, 1, 1⟩,
          ⟨"failure".data, "exit 1".data, 1, 1⟩] := by
  have h := (scriptFilter_or_semantics (fun _ => Except.ok fun _ => true)
      [⟨"success".data, "exit 0".data, 1, 1⟩, ⟨"failure".data, "exit 1".data, 1, 1⟩]
      ("success".data) (".*".data) (fun _ => true)
      (by decide) (fun _ => rfl)).1
  rw [h]
  rfl

/-- C8: scriptFilter returns an error exactly when both selectors are empty —
    with message "name or pattern required" in backquotes — or when the
    pattern is nonempty and fails to compile; every other invocation returns
    without error. -/
theorem scriptFilter_error_iff
    (compile : List Char → Except (List Char) (List Char → Bool))
    (scripts : List Script) (name pattern : List Char) :
    ((∃ e, scriptFilter compile scripts name pattern = Except.error e) ↔
      ((name = [] ∧ pattern = []) ∨
        (pattern ≠ [] ∧ ∃ e, compile pattern = Except.error e))) ∧
    (name = [] ∧ pattern = [] →
      scriptFilter compile scripts name pattern =
        Except.error ("`name` or `pattern` required".data)) := by
  constructor
  · by_cases h0 : name = [] ∧ pattern = []
    · simp [scriptFilter, h0, h0.2]
    · by_cases hp : pattern = []
      · have hn : name ≠ [] := fun h => h0 ⟨h, hp⟩
        simp [scriptFilter, hp, hn]
      · cases hcp : compile pattern with
        | error e => simp [scriptFilter, h0, hp, hcp]
        | ok m => simp [scriptFilter, h0, hp, hcp]
  · rintro ⟨h1, h2⟩
    simp [scriptFilter, h1, h2]

/-- Witness for C8: the both-empty invocation fails with the required-selector
    message. -/
theorem scriptFilter_error_iff_witness :
    scriptFilter (fun _ => Except.ok fun _ => true) [] [] [] =
      Except.error ("`name` or `pattern` required".data) :=
  (scriptFilter_error_iff (fun _ => Except.ok fun _ => true) [] [] []).2 ⟨rfl, rfl⟩

/-- C10: calling scriptFilter with an empty exact name and a nonempty pattern
    that compiles includes every configured script whose name is the empty
    string, whatever the matcher says about that name, because the exact-name
    comparison succeeds against the empty name argument. -/
theorem scriptFilter_empty_name_matches_unnamed
    (compile : List Char → Except (List Char) (List Char → Bool))
    (scripts : List Script) (pattern : List Char)
    (matcher : List Char → Bool) (s : Script)
    (hp : pattern ≠ []) (hc : compile pattern = Except.ok matcher)
    (hs : s ∈ scripts) (hn : s.Name = []) :
    ∃ l, scriptFilter compile scripts [] pattern = Except.ok l ∧ s ∈ l := by
  refine ⟨scriptFilterLoop scripts [] pattern matcher, ?_, ?_⟩
  · rw [scriptFilter, if_neg (by exact fun h => hp h.2), if_pos hp, hc]
  · rw [scriptFilterLoop_eq_filter]
    refine List.mem_filter.mpr ⟨hs, ?_⟩
    simp [sfCond, hn]

/-- Witness for C10: a script with the empty name is selected by a pattern
    whose matcher rejects every name. -/
theorem scriptFilter_empty_name_matches_unnamed_witness :
    ∃ l, scriptFilter (fun _ => Except.ok fun _ => false)
        [⟨[], "exit 0".data, 1, 1⟩] [] ("x".data) = Except.ok l ∧
      (⟨[], "exit 0".data, 1, 1⟩ : Script) ∈ l :=
  scriptFilter_empty_name_matches_unnamed (fun _ => Except.ok fun _ => false)
    [⟨[], "exit 0".data, 1, 1⟩] ("x".data) (fun _ => false)
    ⟨[], "exit 0".data, 1, 1⟩ (by decide) rfl (by simp) rfl

/-- C9 counterexample: a line with an empty label-values field does not match
    the pattern at all — the parser yields no record, rather than a record
    whose labelValues is a single empty-string element. -/
theorem empty_label_values_line_yields_no_record :
    getMetricOutput ("NAME:m:LABEL_VALUES::RESULT:1".data) = [] ∧
    getMetricOutput ("NAME:m:LABEL_VALUES::RESULT:1".data) ≠
      [⟨"m".data, "1".data, [[]]⟩] :=
  ⟨by decide, by decide⟩

/-- C9 amended: a protocol line whose label-values field is empty fails the
    pattern — the label-values group requires at least one character — and so
    contributes no record; consequently the captured label-values field of
    every matching line is nonempty, and a labelValues obtained by splitting
    an empty field never arises. -/
theorem empty_label_values_never_matches :
    getMetricOutput ("NAME:m:LABEL_VALUES::RESULT:1".data) = [] ∧
    (∀ (line : List Char) (g : List Char × List Char × List Char),
      findStringSubmatch line = some g → g.2.1 ≠ []) :=
  ⟨by decide, findStringSubmatch_labels_ne_nil⟩

/-- Witness for the amended C9 at a concrete matching line. -/
theorem empty_label_values_never_matches_witness :
    findStringSubmatch ("NAME:a:LABEL_VALUES:x:RESULT:1".data) =
        some ("a".data, "x".data, "1".data) ∧
      ("x".data ≠ ([] : List Char)) :=
  ⟨by decide,
    empty_label_values_never_matches.2 ("NAME:a:LABEL_VALUES:x:RESULT:1".data)
      ("a".data, "x".data, "1".data) (by decide)⟩

end ScriptExporter
